import Mathlib

/-!
Verification of the task-orchestration core of the automaton repository.

The `task_graph` table rows, the admin mutation routes (the two admin route
files), the worker execution loop (`LocalWorkerPool.runWorker`), the derived
health route and the orchestrator health route are embedded shallowly as
executable Lean definitions. Operations whose implementation file is not part
of the sources (the task-graph core `completeTask`/`failTask`, the claim
protocol `claimAssignedTask`, orchestrator assignment and stale recovery) are
modelled from the specification and carry a doc comment saying so.

Timestamps are epoch milliseconds; SQL `NULL` columns are `Option`; the
`dependencies` JSON array column is modelled as the list of task ids it holds;
the `result` JSON column is modelled by its `success` and `output` fields.
-/

namespace Automaton

/-- The `success` and `output` fields of the `result` JSON column of
`task_graph` (the remaining fields of the JSON are not read by any of the
embedded operations). -/
structure TaskResult where
  success : Bool
  output : String
deriving Repr, DecidableEq

/-- A row of the `task_graph` table, restricted to the columns that the
embedded operations read or write. -/
structure TaskRow where
  id : String
  status : String
  assigned_to : Option String
  dependencies : List String
  result : Option TaskResult
  started_at : Option Nat
  completed_at : Option Nat
  retry_count : Nat
  max_retries : Nat
deriving Repr, DecidableEq

/-- `SELECT ... FROM task_graph WHERE id = ?` — lookup of a task row by id. -/
def findTask (ts : List TaskRow) (taskId : String) : Option TaskRow :=
  ts.find? (fun t => t.id == taskId)

/-- Typed outcome of an admin route: HTTP 200 with a message, HTTP 400 with a
typed error message, or HTTP 404. -/
inductive AdminResponse where
  | ok (message : String)
  | clientError (message : String)
  | notFound
deriving Repr, DecidableEq

/-- The row update of `UPDATE task_graph SET status = 'pending', assigned_to =
NULL, started_at = NULL WHERE id = ?` used by the admin `unassign_task` and
`requeue_task` routes of the second admin routes file. -/
def adminResetRow (taskId : String) (t : TaskRow) : TaskRow :=
  if t.id == taskId then
    { t with status := "pending", assigned_to := none, started_at := none }
  else t

/-- `POST /admin/unassign_task` (second admin routes file): re-reads the
status and resets the task to pending only when it is running or assigned. -/
def adminUnassignTask (ts : List TaskRow) (taskId : String) :
    AdminResponse × List TaskRow :=
  match findTask ts taskId with
  | none => (.notFound, ts)
  | some t =>
    if t.status != "running" && t.status != "assigned" then
      (.clientError ("Task must be assigned/running, got " ++ t.status), ts)
    else
      (.ok "Task unassigned to pending", ts.map (adminResetRow taskId))

/-- `POST /admin/requeue_task` (second admin routes file): same guard and the
same UPDATE as `unassign_task`. -/
def adminRequeueTask (ts : List TaskRow) (taskId : String) :
    AdminResponse × List TaskRow :=
  match findTask ts taskId with
  | none => (.notFound, ts)
  | some t =>
    if t.status != "assigned" && t.status != "running" then
      (.clientError ("Task must be assigned/running, got " ++ t.status), ts)
    else
      (.ok "Task requeued to pending", ts.map (adminResetRow taskId))

/-- The row update of `UPDATE task_graph SET status = 'failed', result = ?,
assigned_to = NULL WHERE id = ?` shared by both admin route files; `out` is
the `output` field of the failure result JSON that is written. -/
def failRow (taskId : String) (out : String) (t : TaskRow) : TaskRow :=
  if t.id == taskId then
    { t with status := "failed", result := some ⟨false, out⟩, assigned_to := none }
  else t

/-- First UPDATE statement of `POST /admin/mark_task_failed` (second admin
routes file): mark the task failed with result output `Admin: reason`. -/
def adminFailUpdate (taskId reason : String) (ts : List TaskRow) : List TaskRow :=
  ts.map (failRow taskId ("Admin: " ++ reason))

/-- The row update of the block-dependents UPDATE: every task whose status is
pending, assigned or running and whose dependencies JSON array contains the
failed task id is set to blocked with assigned_to cleared. -/
def blockRow (taskId : String) (t : TaskRow) : TaskRow :=
  if (t.status == "pending" || t.status == "assigned" || t.status == "running")
      && t.dependencies.contains taskId then
    { t with status := "blocked", assigned_to := none }
  else t

/-- The block-dependents UPDATE statement (identical SQL in both admin route
files). -/
def blockDependentsUpdate (taskId : String) (ts : List TaskRow) : List TaskRow :=
  ts.map (blockRow taskId)

/-- `POST /admin/mark_task_failed` (second admin routes file). The fail UPDATE
and the block-dependents UPDATE are issued as two separate statements with no
enclosing transaction; the composition below is their combined effect, and the
intermediate state after only `adminFailUpdate` is what a crash between the
two statements would leave behind. -/
def adminMarkTaskFailed (ts : List TaskRow) (taskId reason : String) :
    AdminResponse × List TaskRow :=
  match findTask ts taskId with
  | none => (.notFound, ts)
  | some t =>
    if t.status == "completed" || t.status == "failed" then
      (.clientError ("Task already " ++ t.status), ts)
    else
      (.ok "Task marked failed + dependents blocked",
        blockDependentsUpdate taskId (adminFailUpdate taskId reason ts))

/-- `failTaskLocally` (first admin routes file): the fail UPDATE and the
block-dependents UPDATE wrapped in `db.transaction`, hence a single atomic
step whose only observable states are the input and the output. -/
def failTaskLocally (taskId reason : String) (ts : List TaskRow) : List TaskRow :=
  blockDependentsUpdate taskId (ts.map (failRow taskId reason))

/-- The row update of `UPDATE task_graph SET status = 'pending', assigned_to =
NULL WHERE id = ?` of the first admin routes file's `unassign_task` route —
it does not clear `started_at`. -/
def unassignRowLocal (taskId : String) (t : TaskRow) : TaskRow :=
  if t.id == taskId then
    { t with status := "pending", assigned_to := none }
  else t

/-- `POST /unassign_task` (first admin routes file). -/
def unassignTaskLocal (ts : List TaskRow) (taskId : String) :
    AdminResponse × List TaskRow :=
  match findTask ts taskId with
  | none => (.notFound, ts)
  | some t =>
    if t.status != "running" && t.status != "assigned" then
      (.clientError "Task must be assigned or running to unassign.", ts)
    else
      (.ok "Task unassigned.", ts.map (unassignRowLocal taskId))

/-- `POST /mark_task_failed` (first admin routes file): guard, then the
transactional `failTaskLocally` with reason prefix `Admin override: `. -/
def markTaskFailedLocal (ts : List TaskRow) (taskId reason : String) :
    AdminResponse × List TaskRow :=
  match findTask ts taskId with
  | none => (.notFound, ts)
  | some t =>
    if t.status == "completed" || t.status == "failed" then
      (.clientError ("Task is already " ++ t.status), ts)
    else
      (.ok "Task marked failed successfully.",
        failTaskLocally taskId ("Admin override: " ++ reason) ts)

/-- Modelled from the spec: task creation (section 3 of the spec; the creating
code is not among the sources) — a new task starts pending with no owner, no
`started_at`, no `completed_at` and `retry_count` zero. -/
def newTask (taskId : String) (deps : List String) (maxRetries : Nat) : TaskRow :=
  { id := taskId, status := "pending", assigned_to := none, dependencies := deps,
    result := none, started_at := none, completed_at := none,
    retry_count := 0, max_retries := maxRetries }

/-- Modelled from the spec: orchestrator assignment (section 4.2; the
orchestrator loop is not among the sources) — a pending task becomes assigned
with `assigned_to` set and no `started_at` yet. -/
def assignRow (taskId worker : String) (t : TaskRow) : TaskRow :=
  if t.id == taskId && t.status == "pending" then
    { t with status := "assigned", assigned_to := some worker }
  else t

/-- Modelled from the spec (continued): assignment applied to the store. -/
def assignTask (ts : List TaskRow) (taskId worker : String) : List TaskRow :=
  ts.map (assignRow taskId worker)

/-- The row update of the claim protocol's conditional UPDATE. -/
def claimRow (taskId worker : String) (now : Nat) (t : TaskRow) : TaskRow :=
  if t.id == taskId && t.status == "assigned" && t.assigned_to == some worker then
    { t with status := "running", started_at := some now }
  else t

/-- Modelled from the spec: `claimAssignedTask` of `src/state/database.ts`,
which is not among the sources (only its caller in the worker pool is).
Section 4.2: a single conditional update — succeed only if the current status
is assigned and `assigned_to` matches; on success set status running and
`started_at` to now and return true; otherwise return false with no change. -/
def claimAssignedTask (ts : List TaskRow) (taskId worker : String) (now : Nat) :
    Bool × List TaskRow :=
  (ts.any (fun t => t.id == taskId && t.status == "assigned"
      && t.assigned_to == some worker),
    ts.map (claimRow taskId worker now))

/-- Modelled from the spec: `completeTask` of the task-graph module, which is
not among the sources. Section 4.1: requires status running; writes the
result, status completed and `completed_at`; a no-op (not an error) when the
task is already completed or otherwise not running. -/
def completeRow (taskId : String) (r : TaskResult) (now : Nat) (t : TaskRow) :
    TaskRow :=
  if t.id == taskId && t.status == "running" then
    { t with status := "completed", result := some r, completed_at := some now }
  else t

/-- Modelled from the spec (continued): completion applied to the store. -/
def completeTask (ts : List TaskRow) (taskId : String) (r : TaskResult)
    (now : Nat) : List TaskRow :=
  ts.map (completeRow taskId r now)

/-- The row update of the retryable failure path: reset to pending, clear
owner and `started_at`, increment `retry_count`. -/
def retryRow (taskId : String) (t : TaskRow) : TaskRow :=
  if t.id == taskId then
    { t with
      status := "pending", assigned_to := none, started_at := none,
      retry_count := t.retry_count + 1 }
  else t

/-- Modelled from the spec: `failTask` of the task-graph module, which is not
among the sources. Section 4.1: with retries remaining and retryable, reset to
pending with `retry_count` incremented and owner and `started_at` cleared;
otherwise set status failed and block all non-terminal dependents in the same
transaction (one atomic step). Tolerates already-terminal tasks as a no-op. -/
def failTask (ts : List TaskRow) (taskId reason : String) (retryable : Bool) :
    List TaskRow :=
  match findTask ts taskId with
  | none => ts
  | some t =>
    if t.status == "completed" || t.status == "failed" || t.status == "cancelled" then
      ts
    else if retryable && decide (t.retry_count < t.max_retries) then
      ts.map (retryRow taskId)
    else
      blockDependentsUpdate taskId (ts.map (failRow taskId reason))

/-- Modelled from the spec: the stale-recovery reset of the orchestrator loop
(section 4.4; the loop is not among the sources) — an assigned or running task
whose worker is presumed dead is returned to pending with owner and
`started_at` cleared and retry bookkeeping incremented. -/
def staleRow (taskId : String) (t : TaskRow) : TaskRow :=
  if t.id == taskId && (t.status == "assigned" || t.status == "running") then
    { t with
      status := "pending", assigned_to := none, started_at := none,
      retry_count := t.retry_count + 1 }
  else t

/-- Modelled from the spec (continued): stale recovery applied to the store. -/
def staleRecoverTask (ts : List TaskRow) (taskId : String) : List TaskRow :=
  ts.map (staleRow taskId)

/-- A durable-store state together with the specification-only history `ran`:
the ids of every task that has been observed in status running after some
transition. `ran` is ghost state for stating the started-at invariant; the
operations themselves never read it. -/
structure Store where
  tasks : List TaskRow
  ran : List String
deriving Repr, DecidableEq

/-- The ids of the currently running tasks. -/
def runningIds (ts : List TaskRow) : List String :=
  ts.filterMap (fun t => if t.status == "running" then some t.id else none)

/-- The store after an operation produced the row list `ts`: the ghost `ran`
history absorbs every task running in the new state. -/
def afterOp (s : Store) (ts : List TaskRow) : Store :=
  ⟨ts, s.ran ++ runningIds ts⟩

/-- One transition of the shared durable store. Each constructor is one
statement-granular atomic write of the embedded operations; the two UPDATE
statements of the second admin file's `mark_task_failed` route are two
separate transitions (`adminFailPhase1`, `adminFailPhase2`) because the route
does not wrap them in a transaction, while `failTaskLocally` and the
spec-modelled `failTask` are single transitions. `adminFailPhase1` carries the
route's re-read status guard as hypotheses. Task creation requires a fresh id
(`task_graph.id` is a primary key). -/
inductive Step : Store → Store → Prop where
  | create (s : Store) (taskId : String) (deps : List String) (mr : Nat)
      (hfresh : findTask s.tasks taskId = none) :
      Step s (afterOp s (newTask taskId deps mr :: s.tasks))
  | assign (s : Store) (taskId worker : String) :
      Step s (afterOp s (assignTask s.tasks taskId worker))
  | claim (s : Store) (taskId worker : String) (now : Nat) :
      Step s (afterOp s (claimAssignedTask s.tasks taskId worker now).2)
  | complete (s : Store) (taskId : String) (r : TaskResult) (now : Nat) :
      Step s (afterOp s (completeTask s.tasks taskId r now))
  | fail (s : Store) (taskId reason : String) (retryable : Bool) :
      Step s (afterOp s (failTask s.tasks taskId reason retryable))
  | stale (s : Store) (taskId : String) :
      Step s (afterOp s (staleRecoverTask s.tasks taskId))
  | adminUnassign (s : Store) (taskId : String) :
      Step s (afterOp s (adminUnassignTask s.tasks taskId).2)
  | adminRequeue (s : Store) (taskId : String) :
      Step s (afterOp s (adminRequeueTask s.tasks taskId).2)
  | adminFailPhase1 (s : Store) (taskId reason : String) (t0 : TaskRow)
      (hfind : findTask s.tasks taskId = some t0)
      (hnc : t0.status ≠ "completed") (hnf : t0.status ≠ "failed") :
      Step s (afterOp s (adminFailUpdate taskId reason s.tasks))
  | adminFailPhase2 (s : Store) (taskId : String) :
      Step s (afterOp s (blockDependentsUpdate taskId s.tasks))
  | localUnassign (s : Store) (taskId : String) :
      Step s (afterOp s (unassignTaskLocal s.tasks taskId).2)
  | localMarkFailed (s : Store) (taskId reason : String) :
      Step s (afterOp s (markTaskFailedLocal s.tasks taskId reason).2)

/-- Store states reachable from the empty store by the transitions above. -/
inductive Reachable : Store → Prop where
  | init : Reachable ⟨[], []⟩
  | step {s s' : Store} : Reachable s → Step s s' → Reachable s'

/-- The per-task timestamp invariant: `started_at` is set only for tasks that
have been running at some point; running and completed tasks always have it
set; `completed_at` is set exactly for completed tasks. -/
def TaskInv (t : TaskRow) (ran : List String) : Prop :=
  (t.started_at ≠ none → t.id ∈ ran) ∧
  ((t.status = "running" ∨ t.status = "completed") → t.started_at ≠ none) ∧
  (t.completed_at ≠ none ↔ t.status = "completed")

/-- Store well-formedness: task ids are unique (primary key) and every task
satisfies the timestamp invariant. -/
def StoreWF (s : Store) : Prop :=
  (s.tasks.map TaskRow.id).Nodup ∧ ∀ t ∈ s.tasks, TaskInv t s.ran

/-- Weakened per-task invariant used while proving preservation: a task whose
`started_at` is set either already appears in the `ran` history or is running
in the new row list (and will be absorbed into the history by `afterOp`). -/
def TaskInvPre (t : TaskRow) (ran : List String) : Prop :=
  (t.started_at ≠ none → t.id ∈ ran ∨ t.status = "running") ∧
  ((t.status = "running" ∨ t.status = "completed") → t.started_at ≠ none) ∧
  (t.completed_at ≠ none ↔ t.status = "completed")

-- ═══ Worker execution loop (LocalWorkerPool.runWorker) ═══

/-- The inference outcome a turn observes after the per-turn retry loop:
either a response (its `content` and the length of `toolCalls`) or the last
error message when all attempts failed. -/
structure InfResponse where
  content : String
  toolCalls : Nat
deriving Repr, DecidableEq

/-- What one iteration of the worker turn loop observes, in the order the
code branches on it: the shutdown signal at the top of the turn, the
wall-clock milliseconds elapsed since task start at the timeout check, and
the inference outcome. -/
structure TurnObs where
  aborted : Bool
  elapsedMs : Nat
  inference : Except String InfResponse
deriving Repr

/-- The terminal report of one worker execution: abandon silently (claim
lost), `failTask reason retryable`, or `completeTask result`. -/
inductive WorkerOutcome where
  | abandoned
  | failed (reason : String) (retryable : Bool)
  | completed (r : TaskResult)
deriving Repr, DecidableEq

/-- The turn loop of `LocalWorkerPool.runWorker`, one list entry per remaining
turn of the turn budget (`maxTurns`, 25 by default). Per turn, in source
order: an observed abort signal fails the task with retryable false; elapsed
wall clock beyond the task timeout fails it with retryable true; an inference
outcome that is still an error after the retry fails it with retryable true; a
response with tool calls consumes the turn and continues; a response without
tool calls is the completion signal and the task is completed with the
response content (or the fallback text when the content is empty). When the
turn budget is exhausted the loop falls through to the completion write with
the initial empty `finalOutput` and `success` true. Log lines, the liveness
heartbeat and the children-table status writes are elided: they do not touch
`task_graph`. -/
def runTurns (obs : List TurnObs) (timeoutMs : Nat) : WorkerOutcome :=
  match obs with
  | [] => .completed ⟨true, ""⟩
  | o :: rest =>
    if o.aborted then .failed "Worker aborted" false
    else if timeoutMs < o.elapsedMs then
      .failed ("Worker timed out after " ++ toString timeoutMs ++ "ms") true
    else
      match o.inference with
      | .error e => .failed ("Inference failed: " ++ e) true
      | .ok r =>
        if 0 < r.toolCalls then runTurns rest timeoutMs
        else .completed ⟨true, if r.content == "" then "Task completed." else r.content⟩

/-- `runWorker` after the claim attempt: a lost claim abandons the task with
no terminal write; a successful claim runs the turn loop. -/
def runWorkerModel (claimed : Bool) (obs : List TurnObs) (timeoutMs : Nat) :
    WorkerOutcome :=
  if claimed then runTurns obs timeoutMs else .abandoned

/-- `LocalWorkerPool.shutdown`: `abortController.abort()` is called for every
active worker, setting every abort signal. -/
def shutdownPool (signals : List Bool) : List Bool :=
  signals.map (fun _ => true)

-- ═══ Derived health route (GET /health/derived) ═══

/-- A row of the derived-health query over `task_graph`, restricted to the
columns the severity computation reads. `timeout_ms` keeps the JS comparison
semantics in which a NULL column compares as 0. -/
structure HealthRow where
  id : String
  status : String
  timeout_ms : Int
  created_at : Option Int
  started_at : Option Int
  completed_at : Option Int
deriving Repr, DecidableEq

/-- The 60s dispatch-deadlock threshold of the derived-health route. -/
def DISPATCH_THRESHOLD_MS : Int := 60 * 1000

/-- `dispatchAge`: defined only while the task is assigned and unstarted, as
now minus `created_at` (a missing `created_at` reads as epoch 0). -/
def dispatchAge (now : Int) (t : HealthRow) : Option Int :=
  if t.status == "assigned" && t.started_at == none then
    some (now - t.created_at.getD 0)
  else none

/-- `runAge`: defined only while the task is started and uncompleted, as now
minus `started_at`. -/
def runAge (now : Int) (t : HealthRow) : Option Int :=
  if t.started_at != none && t.completed_at == none then
    some (now - t.started_at.getD 0)
  else none

/-- `timed_out`: the run age is defined, the timeout is positive, and the run
age exceeds it. -/
def timedOut (now : Int) (t : HealthRow) : Bool :=
  match runAge now t with
  | some a => decide (0 < t.timeout_ms) && decide (t.timeout_ms < a)
  | none => false

/-- `dispatch_failed`: the dispatch age is defined and exceeds the 60s
threshold. -/
def dispatchFailed (now : Int) (t : HealthRow) : Bool :=
  match dispatchAge now t with
  | some a => decide (DISPATCH_THRESHOLD_MS < a)
  | none => false

/-- The severity assignment of the derived-health route: critical when timed
out, else dispatch_deadlock when dispatch failed, else info for blocked
tasks, else ok. -/
def taskSeverity (now : Int) (t : HealthRow) : String :=
  if timedOut now t then "critical"
  else if dispatchFailed now t then "dispatch_deadlock"
  else if t.status == "blocked" then "info"
  else "ok"

/-- The `status NOT IN ('completed', 'failed', 'cancelled')` filter of the
derived-health query. -/
def isTerminalStatus (st : String) : Bool :=
  st == "completed" || st == "failed" || st == "cancelled"

/-- The derived-health query: all non-terminal task rows. -/
def healthQuery (rows : List HealthRow) : List HealthRow :=
  rows.filter (fun t => !isTerminalStatus t.status)

/-- The summary field `warning_tasks`: the number of health entries whose
severity is the string `warning`. -/
def warningTaskCount (now : Int) (rows : List HealthRow) : Nat :=
  ((healthQuery rows).filter (fun t => taskSeverity now t == "warning")).length

-- ═══ Orchestrator health route (GET /orchestrator/health) ═══

/-- A persisted stale-recovery counter row: the kv rows with key
`orchestrator.stale_count.<taskId>`; `count` models
`parseInt(row.value, 10) || 0`. -/
structure StaleKvRow where
  taskId : String
  count : Nat
deriving Repr, DecidableEq

/-- The columns of the per-counter task lookup that the cycle computation
reads (`max_retries` is a nullable column). -/
structure RetryBudgetRow where
  id : String
  max_retries : Option Nat
deriving Repr, DecidableEq

/-- The retry budget used for a counter row: `task?.max_retries ?? 3` — the
task row's `max_retries`, defaulting to 3 when the task row is missing or the
column is NULL. -/
def staleMaxRetries (tasks : List RetryBudgetRow) (taskId : String) : Nat :=
  ((tasks.find? (fun t => t.id == taskId)).bind RetryBudgetRow.max_retries).getD 3

/-- `exhausted`: the counter has reached the retry budget. -/
def staleExhausted (tasks : List RetryBudgetRow) (r : StaleKvRow) : Bool :=
  decide (staleMaxRetries tasks r.taskId ≤ r.count)

/-- `cycleDetected`: some stale-recovery counter is at least 2 and not yet
exhausted. -/
def cycleDetected (tasks : List RetryBudgetRow) (rows : List StaleKvRow) : Bool :=
  rows.any (fun r => decide (2 ≤ r.count) && !staleExhausted tasks r)

/-- The spec's wording of the cycle signal, as a predicate: there exists a
task whose persisted stale-recovery counter is 2 or more and has not yet
reached that task's retry budget (`max_retries`, defaulting to 3 when the
task row is missing). -/
def CycleSpec (tasks : List RetryBudgetRow) (rows : List StaleKvRow) : Prop :=
  ∃ r ∈ rows, 2 ≤ r.count ∧ r.count < staleMaxRetries tasks r.taskId

-- ═══ Concrete stores and rows used by witnesses and counterexamples ═══

/-- Empty initial store. -/
def demoStore0 : Store := ⟨[], []⟩

/-- One task `t1` created. -/
def demoStore1 : Store := afterOp demoStore0 (newTask "t1" [] 3 :: demoStore0.tasks)

/-- `t1` assigned to a local worker. -/
def demoStore2 : Store := afterOp demoStore1 (assignTask demoStore1.tasks "t1" "local://w1")

/-- `t1` claimed: running with `started_at` 100. -/
def demoStore3 : Store :=
  afterOp demoStore2 (claimAssignedTask demoStore2.tasks "t1" "local://w1" 100).2

/-- `t1` administratively unassigned (second admin routes file) while running:
back to pending with `started_at` cleared. -/
def demoStore4 : Store := afterOp demoStore3 (adminUnassignTask demoStore3.tasks "t1").2

/-- The row of `t1` while running (the single row of `demoStore3`). -/
def demoRunningRow : TaskRow :=
  { id := "t1", status := "running", assigned_to := some "local://w1",
    dependencies := [], result := none, started_at := some 100,
    completed_at := none, retry_count := 0, max_retries := 3 }

/-- Store build-up for the force-fail cascade: `dep1` depends on `root1`. -/
def c1Store1 : Store := afterOp demoStore0 (newTask "dep1" ["root1"] 3 :: demoStore0.tasks)

/-- `root1` created. -/
def c1Store2 : Store := afterOp c1Store1 (newTask "root1" [] 3 :: c1Store1.tasks)

/-- `root1` assigned. -/
def c1Store3 : Store := afterOp c1Store2 (assignTask c1Store2.tasks "root1" "local://w2")

/-- `root1` claimed and running. -/
def c1Store4 : Store :=
  afterOp c1Store3 (claimAssignedTask c1Store3.tasks "root1" "local://w2" 50).2

/-- The row of `root1` while running. -/
def c1RootRunning : TaskRow :=
  { id := "root1", status := "running", assigned_to := some "local://w2",
    dependencies := [], result := none, started_at := some 50,
    completed_at := none, retry_count := 0, max_retries := 3 }

/-- The store after only the first UPDATE statement of the second admin
file's `mark_task_failed` route has run — the state a crash between the two
statements would persist. -/
def c1StoreMid : Store :=
  afterOp c1Store4 (adminFailUpdate "root1" "operator stop" c1Store4.tasks)

/-- A turn whose inference response carries one tool call. -/
def c2ToolTurn : TurnObs := ⟨false, 1000, .ok ⟨"", 1⟩⟩

/-- Twenty-five consecutive tool-call turns: the full default turn budget is
consumed without a completion signal. -/
def c2Obs : List TurnObs := List.replicate 25 c2ToolTurn

/-- A turn at whose top the shutdown abort signal is observed. -/
def c5AbortTurn : TurnObs := ⟨true, 0, .ok ⟨"", 1⟩⟩

/-- A running task owned by a local worker. -/
def c5RunningRow : TaskRow :=
  { id := "t5", status := "running", assigned_to := some "local://w5",
    dependencies := [], result := none, started_at := some 10,
    completed_at := none, retry_count := 0, max_retries := 3 }

/-- A store holding that running task. -/
def c5Tasks : List TaskRow := [c5RunningRow]

/-- An assigned task ready to be claimed by its worker. -/
def c3Row : TaskRow :=
  { id := "t3", status := "assigned", assigned_to := some "local://w3",
    dependencies := [], result := none, started_at := none,
    completed_at := none, retry_count := 0, max_retries := 3 }

/-- A store holding that assigned task. -/
def c3Tasks : List TaskRow := [c3Row]

/-- A blocked non-terminal row, recently created, with no configured
timeout. -/
def c4BlockedRow : HealthRow :=
  { id := "b4", status := "blocked", timeout_ms := 0, created_at := some 0,
    started_at := none, completed_at := none }

/-- Scenario D row: running, timeout 60s, started at epoch 0. -/
def c4ScenarioRow : HealthRow :=
  { id := "s4", status := "running", timeout_ms := 60000, created_at := some 0,
    started_at := some 0, completed_at := none }

/-- A permanently failed root task. -/
def c8Root : TaskRow :=
  { id := "a", status := "failed", assigned_to := none, dependencies := [],
    result := some ⟨false, "boom"⟩, started_at := some 1, completed_at := none,
    retry_count := 0, max_retries := 3 }

/-- A pending task depending on the failed root. -/
def c8Dep : TaskRow :=
  { id := "b", status := "pending", assigned_to := none, dependencies := ["a"],
    result := none, started_at := none, completed_at := none,
    retry_count := 0, max_retries := 3 }

/-- What the cascade turns `c8Dep` into: only `status` and `assigned_to` are
written; every other column, `result` included, is untouched. -/
def c8DepBlocked : TaskRow := { c8Dep with status := "blocked", assigned_to := none }

/-- A completed task, ineligible for all three admin mutations. -/
def c9CompletedRow : TaskRow :=
  { id := "t9", status := "completed", assigned_to := none, dependencies := [],
    result := some ⟨true, "done"⟩, started_at := some 3, completed_at := some 9,
    retry_count := 0, max_retries := 3 }

/-- A store holding that completed task. -/
def c9Tasks : List TaskRow := [c9CompletedRow]

-- ═══ Helper lemmas ═══

lemma failRow_id (taskId out : String) (t : TaskRow) : (failRow taskId out t).id = t.id := by
  unfold failRow; split <;> rfl

lemma blockRow_id (taskId : String) (t : TaskRow) : (blockRow taskId t).id = t.id := by
  unfold blockRow; split <;> rfl

lemma adminResetRow_id (taskId : String) (t : TaskRow) :
    (adminResetRow taskId t).id = t.id := by
  unfold adminResetRow; split <;> rfl

lemma claimRow_id (taskId worker : String) (now : Nat) (t : TaskRow) :
    (claimRow taskId worker now t).id = t.id := by
  unfold claimRow; split <;> rfl

lemma retryRow_id (taskId : String) (t : TaskRow) : (retryRow taskId t).id = t.id := by
  unfold retryRow; split <;> rfl

lemma unassignRowLocal_id (taskId : String) (t : TaskRow) :
    (unassignRowLocal taskId t).id = t.id := by
  unfold unassignRowLocal; split <;> rfl

lemma assignRow_id (taskId worker : String) (t : TaskRow) :
    (assignRow taskId worker t).id = t.id := by
  unfold assignRow; split <;> rfl

lemma completeRow_id (taskId : String) (r : TaskResult) (now : Nat) (t : TaskRow) :
    (completeRow taskId r now t).id = t.id := by
  unfold completeRow; split <;> rfl

lemma staleRow_id (taskId : String) (t : TaskRow) : (staleRow taskId t).id = t.id := by
  unfold staleRow; split <;> rfl

lemma findTask_map (f : TaskRow → TaskRow) (hid : ∀ t, (f t).id = t.id)
    (ts : List TaskRow) (taskId : String) :
    findTask (ts.map f) taskId = (findTask ts taskId).map f := by
  unfold findTask
  rw [List.find?_map]
  have hp : ((fun t : TaskRow => t.id == taskId) ∘ f)
      = (fun t : TaskRow => t.id == taskId) := by
    funext t
    simp [Function.comp, hid]
  rw [hp]

-- ═══ Claim theorems ═══

/-- C2 (code bug evaluation): when the claim succeeds and every one of the 25
turns of the default turn budget yields an inference response that requests
tool calls — so the explicit completion signal (a response free of tool
calls) never arrives and no abort, timeout or inference failure intervenes —
the worker loop falls through and records the task as completed with
`success` true and empty output, not as failed. -/
theorem C2_turn_exhaustion_completes :
    runWorkerModel true c2Obs 600000 = .completed ⟨true, ""⟩ := by
  rfl

/-- C7: the process-wide cycle signal of the orchestrator health route is
raised exactly when some persisted stale-recovery counter is 2 or more and
still below the task's retry budget (`max_retries`, defaulting to 3 when the
task row is missing). -/
theorem C7_cycle_detected_iff (tasks : List RetryBudgetRow) (rows : List StaleKvRow) :
    cycleDetected tasks rows = true ↔ CycleSpec tasks rows := by
  simp only [cycleDetected, CycleSpec, staleExhausted, List.any_eq_true,
    Bool.and_eq_true, decide_eq_true_eq, Bool.not_eq_true', decide_eq_false_iff_not,
    Nat.not_le]

/-- C10: the derived-health severity of every task row is one of ok, info,
dispatch_deadlock, critical; the string warning is never assigned, and the
summary field warning_tasks is 0 for every store contents. -/
theorem C10_severity_never_warning :
    (∀ (now : Int) (t : HealthRow),
      taskSeverity now t = "ok" ∨ taskSeverity now t = "info" ∨
        taskSeverity now t = "dispatch_deadlock" ∨ taskSeverity now t = "critical") ∧
    (∀ (now : Int) (t : HealthRow), taskSeverity now t ≠ "warning") ∧
    (∀ (now : Int) (rows : List HealthRow), warningTaskCount now rows = 0) := by
  have hmem : ∀ (now : Int) (t : HealthRow),
      taskSeverity now t = "ok" ∨ taskSeverity now t = "info" ∨
        taskSeverity now t = "dispatch_deadlock" ∨ taskSeverity now t = "critical" := by
    intro now t
    unfold taskSeverity
    split
    · tauto
    · split
      · tauto
      · split <;> tauto
  have hne : ∀ (now : Int) (t : HealthRow), taskSeverity now t ≠ "warning" := by
    intro now t
    rcases hmem now t with h | h | h | h <;> rw [h] <;> decide
  refine ⟨hmem, hne, ?_⟩
  intro now rows
  unfold warningTaskCount
  rw [List.length_eq_zero, List.filter_eq_nil_iff]
  intro a _
  simp only [beq_iff_eq]
  exact hne now a

/-- C4 counterexample: a blocked (non-terminal) task that is neither timed
out nor dispatch-deadlocked is classified info, not ok as the claim's
classification rule states. -/
theorem C4_counterexample_blocked_info :
    taskSeverity 1000 c4BlockedRow = "info" ∧ timedOut 1000 c4BlockedRow = false ∧
    dispatchFailed 1000 c4BlockedRow = false ∧
    isTerminalStatus c4BlockedRow.status = false ∧ "info" ≠ "ok" := by
  decide

/-- C5 counterexample: a worker that observes the shutdown abort signal on
its first turn fails its running task with retryable false, so the task ends
in the terminal status failed — not pending, and a later restart does not
pick it up again. -/
theorem C5_counterexample_abort_fails_permanently :
    runWorkerModel true [c5AbortTurn] 600000 = .failed "Worker aborted" false ∧
    (findTask (failTask c5Tasks "t5" "Worker aborted" false) "t5").map TaskRow.status
      = some "failed" ∧
    (findTask (failTask c5Tasks "t5" "Worker aborted" false) "t5").map TaskRow.status
      ≠ some "pending" := by
  decide

/-- C8 counterexample: the failure cascade rewrites a dependent row by
setting only `status` to blocked and clearing `assigned_to`; every other
column — `result` included — is untouched, so no reference to the root failed
task is persisted by the block write (the only mention of the root id is the
pre-existing `dependencies` column). -/
theorem C8_counterexample_no_reference_written :
    blockDependentsUpdate "a" [c8Root, c8Dep] = [c8Root, c8DepBlocked] ∧
    c8DepBlocked.result = none ∧ c8DepBlocked.result = c8Dep.result ∧
    c8DepBlocked.dependencies = c8Dep.dependencies ∧
    c8DepBlocked.status = "blocked" := by
  decide

/-- C4 (amended): dispatch_age is defined exactly while the task is assigned
and unstarted and run_age exactly while started and uncompleted; severity is
critical exactly when the run age exceeds the task's configured positive
timeout, else dispatch_deadlock exactly when the dispatch age exceeds the 60s
threshold, else info when the task is blocked, else ok; and in particular the
Scenario D row (running, timeout 60s, started 90s before now) is reported
timed out and critical. -/
theorem C4_amended_health_classification :
    (∀ (now : Int) (t : HealthRow),
      (dispatchAge now t ≠ none ↔ (t.status = "assigned" ∧ t.started_at = none)) ∧
      (runAge now t ≠ none ↔ (t.started_at ≠ none ∧ t.completed_at = none)) ∧
      (timedOut now t = true ↔
        ∃ a, runAge now t = some a ∧ 0 < t.timeout_ms ∧ t.timeout_ms < a) ∧
      (dispatchFailed now t = true ↔
        ∃ a, dispatchAge now t = some a ∧ DISPATCH_THRESHOLD_MS < a) ∧
      (taskSeverity now t = "critical" ↔ timedOut now t = true) ∧
      (taskSeverity now t = "dispatch_deadlock" ↔
        (timedOut now t = false ∧ dispatchFailed now t = true)) ∧
      (timedOut now t = false → dispatchFailed now t = false →
        t.status = "blocked" → taskSeverity now t = "info") ∧
      (timedOut now t = false → dispatchFailed now t = false →
        t.status ≠ "blocked" → taskSeverity now t = "ok")) ∧
    (timedOut 90000 c4ScenarioRow = true ∧ taskSeverity 90000 c4ScenarioRow = "critical" ∧
      c4ScenarioRow.timeout_ms = 60000 ∧ c4ScenarioRow.status = "running" ∧
      runAge 90000 c4ScenarioRow = some 90000) := by
  refine ⟨?_, by decide⟩
  intro now t
  refine ⟨?_, ?_, ?_, ?_, ?_, ?_, ?_, ?_⟩
  · unfold dispatchAge
    by_cases h : (t.status == "assigned" && t.started_at == none) = true
    · simp only [if_pos h]
      simp only [Bool.and_eq_true, beq_iff_eq] at h
      simp [h.1, h.2]
    · simp only [if_neg h]
      simp only [Bool.and_eq_true, beq_iff_eq] at h
      simp [h]
  · unfold runAge
    by_cases h : (t.started_at != none && t.completed_at == none) = true
    · simp only [if_pos h]
      simp only [Bool.and_eq_true, bne_iff_ne, beq_iff_eq] at h
      simp [h.1, h.2]
    · simp only [if_neg h]
      simp only [Bool.and_eq_true, bne_iff_ne, beq_iff_eq] at h
      simp [h]
  · unfold timedOut
    cases hra : runAge now t with
    | none => simp
    | some a => simp
  · unfold dispatchFailed
    cases hda : dispatchAge now t with
    | none => simp
    | some a => simp
  · by_cases ht : timedOut now t = true
    · simp [taskSeverity, ht]
    · by_cases hd : dispatchFailed now t = true
      · simp [taskSeverity, ht, hd]
      · by_cases hb : (t.status == "blocked") = true
        · simp [taskSeverity, ht, hd, hb]
        · simp [taskSeverity, ht, hd, hb]
  · by_cases ht : timedOut now t = true
    · simp [taskSeverity, ht]
    · by_cases hd : dispatchFailed now t = true
      · simp [taskSeverity, ht, hd]
      · by_cases hb : (t.status == "blocked") = true
        · simp [taskSeverity, ht, hd, hb]
        · simp [taskSeverity, ht, hd, hb]
  · intro h1 h2 h3
    simp [taskSeverity, h1, h2, h3]
  · intro h1 h2 h3
    simp [taskSeverity, h1, h2, h3]

/-- C3: the claim protocol is exactly-once-effective. With the task currently
assigned to the expected worker, of two claim attempts with the same expected
worker serialized by the store's atomic conditional update, the first returns
true (the task becomes running with `started_at` set) and the second returns
false and changes nothing; and a worker whose claim returned false abandons
the task with no terminal write. -/
theorem C3_claim_exactly_once (ts : List TaskRow) (taskId worker : String)
    (n1 n2 : Nat) (t : TaskRow) (hfind : findTask ts taskId = some t)
    (hst : t.status = "assigned") (hw : t.assigned_to = some worker) :
    (claimAssignedTask ts taskId worker n1).1 = true ∧
    (claimAssignedTask (claimAssignedTask ts taskId worker n1).2 taskId worker n2).1
      = false ∧
    (claimAssignedTask (claimAssignedTask ts taskId worker n1).2 taskId worker n2).2
      = (claimAssignedTask ts taskId worker n1).2 ∧
    (∀ (obs : List TurnObs) (tMs : Nat), runWorkerModel false obs tMs = .abandoned) := by
  have hfind2 : ts.find? (fun u => u.id == taskId) = some t := hfind
  have hid : (t.id == taskId) = true := by
    simpa using List.find?_some hfind2
  have hmem : t ∈ ts := List.mem_of_find?_eq_some hfind2
  refine ⟨?_, ?_, ?_, fun _ _ => rfl⟩
  · show (ts.any _) = true
    rw [List.any_eq_true]
    exact ⟨t, hmem, by simp [hid, hst, hw]⟩
  · show ((ts.map (claimRow taskId worker n1)).any _) = false
    rw [List.any_eq_false]
    intro u hu
    obtain ⟨v, hv, rfl⟩ := List.mem_map.mp hu
    unfold claimRow
    by_cases hc : (v.id == taskId && v.status == "assigned"
        && v.assigned_to == some worker) = true
    · simp only [if_pos hc]
      simp
    · simp only [if_neg hc]
      exact hc
  · show (ts.map (claimRow taskId worker n1)).map (claimRow taskId worker n2)
      = ts.map (claimRow taskId worker n1)
    rw [List.map_map]
    apply List.map_congr_left
    intro v _
    show claimRow taskId worker n2 (claimRow taskId worker n1 v)
      = claimRow taskId worker n1 v
    unfold claimRow
    by_cases hc : (v.id == taskId && v.status == "assigned"
        && v.assigned_to == some worker) = true
    · simp only [if_pos hc]
      simp
    · simp only [if_neg hc]

/-- C3 witness: the exactly-once behavior evaluated on a concrete store with
one assigned task. -/
theorem C3_claim_exactly_once_witness :
    (claimAssignedTask c3Tasks "t3" "local://w3" 5).1 = true ∧
    (claimAssignedTask (claimAssignedTask c3Tasks "t3" "local://w3" 5).2 "t3"
      "local://w3" 6).1 = false ∧
    (claimAssignedTask (claimAssignedTask c3Tasks "t3" "local://w3" 5).2 "t3"
      "local://w3" 6).2 = (claimAssignedTask c3Tasks "t3" "local://w3" 5).2 :=
  have h := C3_claim_exactly_once c3Tasks "t3" "local://w3" 5 6 c3Row
    (by decide) (by decide) (by decide)
  ⟨h.1, h.2.1, h.2.2.1⟩

/-- C1 (code bug evaluation): in the reachable store where `root1` is running
and `dep1` (pending) depends on it, the store state after only the first
UPDATE statement of the second admin file's `mark_task_failed` route — the
state a crash between its two un-transacted statements durably leaves — has
`root1` failed while `dep1` is still pending and unblocked; the transactional
`failTaskLocally` of the first admin file (and the completed two-statement
route) leaves `dep1` blocked. -/
theorem C1_force_fail_not_atomic :
    Reachable c1StoreMid ∧
    (findTask c1StoreMid.tasks "root1").map TaskRow.status = some "failed" ∧
    (findTask c1StoreMid.tasks "dep1").map TaskRow.status = some "pending" ∧
    (findTask c1StoreMid.tasks "dep1").map TaskRow.dependencies = some ["root1"] ∧
    (findTask (failTaskLocally "root1" "Admin override: operator stop" c1Store4.tasks)
      "dep1").map TaskRow.status = some "blocked" ∧
    (findTask (adminMarkTaskFailed c1Store4.tasks "root1" "operator stop").2
      "dep1").map TaskRow.status = some "blocked" := by
  refine ⟨?_, by decide, by decide, by decide, by decide, by decide⟩
  have h1 : Reachable c1Store1 :=
    .step .init (.create demoStore0 "dep1" ["root1"] 3 (by decide))
  have h2 : Reachable c1Store2 :=
    .step h1 (.create c1Store1 "root1" [] 3 (by decide))
  have h3 : Reachable c1Store3 :=
    .step h2 (.assign c1Store2 "root1" "local://w2")
  have h4 : Reachable c1Store4 :=
    .step h3 (.claim c1Store3 "root1" "local://w2" 50)
  exact .step h4 (.adminFailPhase1 c1Store4 "root1" "operator stop" c1RootRunning
    (by decide) (by decide) (by decide))

/-- C5 (amended): pool shutdown sets the abort signal of every active worker;
an execution that observes the signal at the top of a turn (after any number
of uneventful tool-call turns) stops and fails its task with retryable false
before exiting, so the task ends in the terminal status failed — it is not
left running forever, but it is also not returned to pending for a later
restart to pick up. -/
theorem C5_amended_cancellation (pre : List TurnObs) (o : TurnObs)
    (rest : List TurnObs) (tMs : Nat) (sigs : List Bool) (ts : List TaskRow)
    (taskId : String) (t : TaskRow)
    (hpre : ∀ p ∈ pre, p.aborted = false ∧ p.elapsedMs ≤ tMs ∧
      ∃ r, p.inference = .ok r ∧ 0 < r.toolCalls)
    (ho : o.aborted = true)
    (hfind : findTask ts taskId = some t) (hrun : t.status = "running") :
    runTurns (pre ++ o :: rest) tMs = .failed "Worker aborted" false ∧
    shutdownPool sigs = List.replicate sigs.length true ∧
    (findTask (failTask ts taskId "Worker aborted" false) taskId).map TaskRow.status
      = some "failed" := by
  have hid : (t.id == taskId) = true := by
    simpa using List.find?_some (show ts.find? (fun u => u.id == taskId) = some t from hfind)
  refine ⟨?_, ?_, ?_⟩
  · clear hfind hrun hid
    induction pre with
    | nil => simp [runTurns, ho]
    | cons p l ih =>
      obtain ⟨hab, hel, r, hinf, htc⟩ := hpre p (List.mem_cons_self p l)
      have hle : ¬ (tMs < p.elapsedMs) := Nat.not_lt.mpr hel
      rw [List.cons_append, runTurns]
      simp only [hab, hle, if_false, hinf, htc, if_true, Bool.false_eq_true, if_pos]
      exact ih (fun q hq => hpre q (List.mem_cons_of_mem p hq))
  · simp [shutdownPool, List.map_const']
  · have hg1 : (t.status == "completed" || t.status == "failed"
        || t.status == "cancelled") = false := by
      simp [hrun]
    unfold failTask blockDependentsUpdate
    simp only [hfind, hg1]
    simp only [Bool.false_and, Bool.false_eq_true, if_false]
    rw [findTask_map (blockRow taskId) (blockRow_id taskId),
      findTask_map (failRow taskId "Worker aborted") (failRow_id taskId "Worker aborted"),
      hfind]
    simp [failRow, blockRow, hid]

/-- C5 witness: the cancellation behavior evaluated at a concrete abort turn,
a two-worker pool and a concrete running task. -/
theorem C5_amended_cancellation_witness :
    runTurns [c5AbortTurn] 600000 = .failed "Worker aborted" false ∧
    shutdownPool [false, false] = List.replicate 2 true ∧
    (findTask (failTask c5Tasks "t5" "Worker aborted" false) "t5").map TaskRow.status
      = some "failed" :=
  C5_amended_cancellation [] c5AbortTurn [] 600000 [false, false] c5Tasks "t5"
    c5RunningRow (by simp) (by decide) (by decide) (by decide)

/-- C9: each admin mutation of the second admin routes file re-reads the
task's current status first and mutates only when that status is eligible
(running or assigned for unassign and requeue; anything except completed and
failed for force-fail); a missing task or an ineligible status yields a typed
error response with the task rows unchanged. -/
theorem C9_admin_guards (ts : List TaskRow) (taskId reason : String) :
    (findTask ts taskId = none →
      adminUnassignTask ts taskId = (.notFound, ts) ∧
      adminRequeueTask ts taskId = (.notFound, ts) ∧
      adminMarkTaskFailed ts taskId reason = (.notFound, ts)) ∧
    (∀ t, findTask ts taskId = some t →
      (t.status ≠ "running" → t.status ≠ "assigned" →
        adminUnassignTask ts taskId
          = (.clientError ("Task must be assigned/running, got " ++ t.status), ts) ∧
        adminRequeueTask ts taskId
          = (.clientError ("Task must be assigned/running, got " ++ t.status), ts)) ∧
      ((t.status = "running" ∨ t.status = "assigned") →
        adminUnassignTask ts taskId
          = (.ok "Task unassigned to pending", ts.map (adminResetRow taskId)) ∧
        adminRequeueTask ts taskId
          = (.ok "Task requeued to pending", ts.map (adminResetRow taskId))) ∧
      ((t.status = "completed" ∨ t.status = "failed") →
        adminMarkTaskFailed ts taskId reason
          = (.clientError ("Task already " ++ t.status), ts)) ∧
      (t.status ≠ "completed" → t.status ≠ "failed" →
        adminMarkTaskFailed ts taskId reason
          = (.ok "Task marked failed + dependents blocked",
              blockDependentsUpdate taskId (adminFailUpdate taskId reason ts)))) := by
  constructor
  · intro h
    unfold adminUnassignTask adminRequeueTask adminMarkTaskFailed
    simp [h]
  · intro t hfind
    refine ⟨?_, ?_, ?_, ?_⟩
    · intro h1 h2
      unfold adminUnassignTask adminRequeueTask
      simp only [hfind]
      simp [h1, h2]
    · intro hor
      unfold adminUnassignTask adminRequeueTask
      simp only [hfind]
      rcases hor with h | h <;> simp [h]
    · intro hor
      unfold adminMarkTaskFailed
      simp only [hfind]
      rcases hor with h | h <;> simp [h]
    · intro h1 h2
      unfold adminMarkTaskFailed
      simp only [hfind]
      simp [h1, h2]

/-- C9 witness: a completed task is rejected by unassign with a typed error
and by force-fail with a typed error, both leaving the rows unchanged. -/
theorem C9_admin_guards_witness :
    adminUnassignTask c9Tasks "t9"
      = (.clientError ("Task must be assigned/running, got "
          ++ c9CompletedRow.status), c9Tasks) ∧
    adminMarkTaskFailed c9Tasks "t9" "cleanup"
      = (.clientError ("Task already " ++ c9CompletedRow.status), c9Tasks) :=
  have h := (C9_admin_guards c9Tasks "t9" "cleanup").2 c9CompletedRow (by decide)
  ⟨(h.1 (by decide) (by decide)).1,
   h.2.2.1 (Or.inl (by decide))⟩

/-- C8 (amended): a task blocked by the failure cascade carries no freshly
persisted reference to the root failed task: the cascade writes only
`status` and `assigned_to`, and the operator-visible link to the root is the
pre-existing `dependencies` column, which the cascade leaves unchanged and
which necessarily contains the root's id. -/
theorem C8_amended_trace_via_dependencies (ts : List TaskRow) (rootId : String)
    (t : TaskRow)
    (hnt : t.status = "pending" ∨ t.status = "assigned" ∨ t.status = "running")
    (hdep : rootId ∈ t.dependencies) :
    blockDependentsUpdate rootId ts = ts.map (blockRow rootId) ∧
    (blockRow rootId t).status = "blocked" ∧
    (blockRow rootId t).dependencies = t.dependencies ∧
    rootId ∈ (blockRow rootId t).dependencies ∧
    (blockRow rootId t).result = t.result ∧
    (blockRow rootId t).id = t.id := by
  have hc : ((t.status == "pending" || t.status == "assigned"
      || t.status == "running") && t.dependencies.contains rootId) = true := by
    rcases hnt with h | h | h <;> simp [h, hdep]
  have hb : blockRow rootId t = { t with status := "blocked", assigned_to := none } := by
    unfold blockRow
    rw [hc]
    simp
  refine ⟨rfl, ?_, ?_, ?_, ?_, ?_⟩ <;> simp [hb, hdep]

/-- C8 witness: the cascade applied to the concrete pending dependent of the
failed root `a`. -/
theorem C8_amended_trace_via_dependencies_witness :
    (blockRow "a" c8Dep).status = "blocked" ∧
    (blockRow "a" c8Dep).dependencies = c8Dep.dependencies ∧
    "a" ∈ (blockRow "a" c8Dep).dependencies ∧
    (blockRow "a" c8Dep).result = c8Dep.result :=
  have h := C8_amended_trace_via_dependencies [c8Root, c8Dep] "a" c8Dep
    (Or.inl (by decide)) (by decide)
  ⟨h.2.1, h.2.2.1, h.2.2.2.1, h.2.2.2.2.1⟩

-- ═══ Invariant preservation machinery for the transition system ═══

lemma taskInv_weaken {t : TaskRow} {ran : List String} (h : TaskInv t ran) :
    TaskInvPre t ran :=
  ⟨fun hs => Or.inl (h.1 hs), h.2.1, h.2.2⟩

lemma completed_at_none_of_status {t : TaskRow} {ran : List String}
    (h : TaskInv t ran) (hne : t.status ≠ "completed") : t.completed_at = none := by
  by_contra hcon
  exact hne (h.2.2.mp hcon)

lemma mem_runningIds {ts : List TaskRow} {t : TaskRow} (ht : t ∈ ts)
    (hr : t.status = "running") : t.id ∈ runningIds ts := by
  unfold runningIds
  rw [List.mem_filterMap]
  exact ⟨t, ht, by simp [hr]⟩

lemma find_unique {ts : List TaskRow} {taskId : String} {t0 t : TaskRow}
    (hnd : (ts.map TaskRow.id).Nodup) (hfind : findTask ts taskId = some t0)
    (ht : t ∈ ts) (hid : t.id = taskId) : t = t0 := by
  have ht0 : t0 ∈ ts :=
    List.mem_of_find?_eq_some (show ts.find? (fun u => u.id == taskId) = some t0 from hfind)
  have hid0 : t0.id = taskId := by
    simpa using List.find?_some (show ts.find? (fun u => u.id == taskId) = some t0 from hfind)
  exact List.inj_on_of_nodup_map hnd ht ht0 (by rw [hid, hid0])

lemma storeInv_map {s : Store} (f : TaskRow → TaskRow)
    (hid : ∀ t, (f t).id = t.id) (hs : StoreWF s)
    (hf : ∀ t ∈ s.tasks, TaskInv t s.ran → TaskInvPre (f t) s.ran) :
    StoreWF (afterOp s (s.tasks.map f)) := by
  obtain ⟨hnd, hinv⟩ := hs
  constructor
  · have hids : (s.tasks.map f).map TaskRow.id = s.tasks.map TaskRow.id := by
      rw [List.map_map]
      apply List.map_congr_left
      intro a _
      exact hid a
    show ((s.tasks.map f).map TaskRow.id).Nodup
    rw [hids]
    exact hnd
  · intro t' ht'
    have ht'' : t' ∈ s.tasks.map f := ht'
    obtain ⟨t, ht, rfl⟩ := List.mem_map.mp ht''
    obtain ⟨h1, h2, h3⟩ := hf t ht (hinv t ht)
    refine ⟨?_, h2, h3⟩
    intro hst
    rcases h1 hst with h | h
    · exact List.mem_append.mpr (Or.inl h)
    · exact List.mem_append.mpr (Or.inr (mem_runningIds (List.mem_map_of_mem f ht) h))

lemma storeInv_keep {s : Store} (hs : StoreWF s) : StoreWF (afterOp s s.tasks) := by
  obtain ⟨hnd, hinv⟩ := hs
  refine ⟨hnd, ?_⟩
  intro t ht
  obtain ⟨h1, h2, h3⟩ := hinv t ht
  exact ⟨fun h => List.mem_append.mpr (Or.inl (h1 h)), h2, h3⟩

lemma storeInv_create {s : Store} (hs : StoreWF s) (taskId : String)
    (deps : List String) (mr : Nat) (hfresh : findTask s.tasks taskId = none) :
    StoreWF (afterOp s (newTask taskId deps mr :: s.tasks)) := by
  obtain ⟨hnd, hinv⟩ := hs
  constructor
  · have hnotin : taskId ∉ s.tasks.map TaskRow.id := by
      intro hmem
      obtain ⟨t, ht, hid⟩ := List.mem_map.mp hmem
      have hnone := List.find?_eq_none.mp
        (show s.tasks.find? (fun u => u.id == taskId) = none from hfresh) t ht
      exact hnone (by simp [hid])
    exact List.nodup_cons.mpr ⟨hnotin, hnd⟩
  · intro t ht
    have ht2 : t = newTask taskId deps mr ∨ t ∈ s.tasks := List.mem_cons.mp ht
    rcases ht2 with rfl | ht3
    · refine ⟨?_, ?_, ?_⟩ <;> simp [newTask]
    · obtain ⟨h1, h2, h3⟩ := hinv t ht3
      exact ⟨fun h => List.mem_append.mpr (Or.inl (h1 h)), h2, h3⟩

lemma taskInvPre_blockRow {t : TaskRow} {ran : List String} {taskId : String}
    (hinv : TaskInv t ran) : TaskInvPre (blockRow taskId t) ran := by
  unfold blockRow
  by_cases hc : ((t.status == "pending" || t.status == "assigned"
      || t.status == "running") && t.dependencies.contains taskId) = true
  · rw [if_pos hc]
    obtain ⟨h1, h2, h3⟩ := hinv
    have hsts : t.status = "pending" ∨ t.status = "assigned" ∨ t.status = "running" := by
      simp only [Bool.and_eq_true, Bool.or_eq_true, beq_iff_eq] at hc
      tauto
    have hcn : t.completed_at = none := completed_at_none_of_status ⟨h1, h2, h3⟩
      (by rcases hsts with h | h | h <;> rw [h] <;> decide)
    refine ⟨fun hst => Or.inl (h1 hst), ?_, ?_⟩ <;> simp [hcn]
  · rw [if_neg hc]
    exact taskInv_weaken hinv

lemma taskInvPre_failRow {t t0 : TaskRow} {ran : List String} {ts : List TaskRow}
    {taskId out : String} (hnd : (ts.map TaskRow.id).Nodup)
    (hfind : findTask ts taskId = some t0) (hnc : t0.status ≠ "completed")
    (ht : t ∈ ts) (hinv : TaskInv t ran) : TaskInvPre (failRow taskId out t) ran := by
  unfold failRow
  by_cases hc : (t.id == taskId) = true
  · rw [if_pos hc]
    have hteq : t = t0 := find_unique hnd hfind ht (by simpa using hc)
    obtain ⟨h1, h2, h3⟩ := hinv
    have hcn : t.completed_at = none := completed_at_none_of_status ⟨h1, h2, h3⟩
      (by rw [hteq]; exact hnc)
    refine ⟨fun hst => Or.inl (h1 hst), ?_, ?_⟩ <;> simp [hcn]
  · rw [if_neg hc]
    exact taskInv_weaken hinv

lemma blockRow_failed {taskId : String} {u : TaskRow} (hu : u.status = "failed") :
    blockRow taskId u = u := by
  unfold blockRow
  rw [if_neg]
  simp [hu]

lemma storeWF_fail_cascade {s : Store} (hs : StoreWF s) (taskId out : String)
    {t0 : TaskRow} (hfind : findTask s.tasks taskId = some t0)
    (hnc : t0.status ≠ "completed") :
    StoreWF (afterOp s (blockDependentsUpdate taskId (s.tasks.map (failRow taskId out)))) := by
  have hmm : blockDependentsUpdate taskId (s.tasks.map (failRow taskId out))
      = s.tasks.map (fun t => blockRow taskId (failRow taskId out t)) := by
    unfold blockDependentsUpdate
    rw [List.map_map]
    rfl
  rw [hmm]
  apply storeInv_map _ (fun t => by rw [blockRow_id, failRow_id]) hs
  intro t ht hinv
  by_cases hc : (t.id == taskId) = true
  · have hteq : t = t0 := find_unique hs.1 hfind ht (by simpa using hc)
    have hfr : failRow taskId out t
        = { t with
            status := "failed", result := some ⟨false, out⟩, assigned_to := none } := by
      unfold failRow
      rw [if_pos hc]
    obtain ⟨h1, h2, h3⟩ := hinv
    have hcn : t.completed_at = none := completed_at_none_of_status ⟨h1, h2, h3⟩
      (by rw [hteq]; exact hnc)
    rw [hfr, blockRow_failed (by rfl)]
    refine ⟨fun hst => Or.inl (h1 hst), ?_, ?_⟩ <;> simp [hcn]
  · have hfr : failRow taskId out t = t := by
      unfold failRow
      rw [if_neg hc]
    rw [hfr]
    exact taskInvPre_blockRow hinv

lemma storeWF_failRow_map {s : Store} (hs : StoreWF s) (taskId out : String)
    {t0 : TaskRow} (hfind : findTask s.tasks taskId = some t0)
    (hnc : t0.status ≠ "completed") :
    StoreWF (afterOp s (s.tasks.map (failRow taskId out))) := by
  apply storeInv_map _ (failRow_id taskId out) hs
  intro t ht hinv
  exact taskInvPre_failRow hs.1 hfind hnc ht hinv

lemma storeWF_blockDependents {s : Store} (hs : StoreWF s) (taskId : String) :
    StoreWF (afterOp s (blockDependentsUpdate taskId s.tasks)) := by
  have hbd : blockDependentsUpdate taskId s.tasks = s.tasks.map (blockRow taskId) := rfl
  rw [hbd]
  apply storeInv_map _ (blockRow_id taskId) hs
  intro t ht hinv
  exact taskInvPre_blockRow hinv

lemma storeWF_adminReset_map {s : Store} (hs : StoreWF s) (taskId : String)
    {t0 : TaskRow} (hfind : findTask s.tasks taskId = some t0)
    (hnc : t0.status ≠ "completed") :
    StoreWF (afterOp s (s.tasks.map (adminResetRow taskId))) := by
  apply storeInv_map _ (adminResetRow_id taskId) hs
  intro t ht hinv
  unfold adminResetRow
  by_cases hc : (t.id == taskId) = true
  · rw [if_pos hc]
    have hteq : t = t0 := find_unique hs.1 hfind ht (by simpa using hc)
    have hcn : t.completed_at = none := completed_at_none_of_status hinv
      (by rw [hteq]; exact hnc)
    refine ⟨?_, ?_, ?_⟩ <;> simp [hcn]
  · rw [if_neg hc]
    exact taskInv_weaken hinv

lemma storeWF_unassignLocal_map {s : Store} (hs : StoreWF s) (taskId : String)
    {t0 : TaskRow} (hfind : findTask s.tasks taskId = some t0)
    (hnc : t0.status ≠ "completed") :
    StoreWF (afterOp s (s.tasks.map (unassignRowLocal taskId))) := by
  apply storeInv_map _ (unassignRowLocal_id taskId) hs
  intro t ht hinv
  unfold unassignRowLocal
  obtain ⟨h1, h2, h3⟩ := hinv
  by_cases hc : (t.id == taskId) = true
  · rw [if_pos hc]
    have hteq : t = t0 := find_unique hs.1 hfind ht (by simpa using hc)
    have hcn : t.completed_at = none := completed_at_none_of_status ⟨h1, h2, h3⟩
      (by rw [hteq]; exact hnc)
    refine ⟨fun hst => Or.inl (h1 hst), ?_, ?_⟩ <;> simp [hcn]
  · rw [if_neg hc]
    exact taskInv_weaken ⟨h1, h2, h3⟩

lemma storeWF_retry_map {s : Store} (hs : StoreWF s) (taskId : String)
    {t0 : TaskRow} (hfind : findTask s.tasks taskId = some t0)
    (hnc : t0.status ≠ "completed") :
    StoreWF (afterOp s (s.tasks.map (retryRow taskId))) := by
  apply storeInv_map _ (retryRow_id taskId) hs
  intro t ht hinv
  unfold retryRow
  by_cases hc : (t.id == taskId) = true
  · rw [if_pos hc]
    have hteq : t = t0 := find_unique hs.1 hfind ht (by simpa using hc)
    have hcn : t.completed_at = none := completed_at_none_of_status hinv
      (by rw [hteq]; exact hnc)
    refine ⟨?_, ?_, ?_⟩ <;> simp [hcn]
  · rw [if_neg hc]
    exact taskInv_weaken hinv

lemma storeWF_assign {s : Store} (hs : StoreWF s) (taskId worker : String) :
    StoreWF (afterOp s (assignTask s.tasks taskId worker)) := by
  have ha : assignTask s.tasks taskId worker = s.tasks.map (assignRow taskId worker) := rfl
  rw [ha]
  apply storeInv_map _ (assignRow_id taskId worker) hs
  intro t ht hinv
  unfold assignRow
  obtain ⟨h1, h2, h3⟩ := hinv
  by_cases hc : (t.id == taskId && t.status == "pending") = true
  · rw [if_pos hc]
    simp only [Bool.and_eq_true, beq_iff_eq] at hc
    have hcn : t.completed_at = none := completed_at_none_of_status ⟨h1, h2, h3⟩
      (by rw [hc.2]; decide)
    refine ⟨fun hst => Or.inl (h1 hst), ?_, ?_⟩ <;> simp [hcn]
  · rw [if_neg hc]
    exact taskInv_weaken ⟨h1, h2, h3⟩

lemma storeWF_claim {s : Store} (hs : StoreWF s) (taskId worker : String) (now : Nat) :
    StoreWF (afterOp s (claimAssignedTask s.tasks taskId worker now).2) := by
  have ha : (claimAssignedTask s.tasks taskId worker now).2
      = s.tasks.map (claimRow taskId worker now) := rfl
  rw [ha]
  apply storeInv_map _ (claimRow_id taskId worker now) hs
  intro t ht hinv
  unfold claimRow
  obtain ⟨h1, h2, h3⟩ := hinv
  by_cases hc : (t.id == taskId && t.status == "assigned"
      && t.assigned_to == some worker) = true
  · rw [if_pos hc]
    simp only [Bool.and_eq_true, beq_iff_eq] at hc
    have hcn : t.completed_at = none := completed_at_none_of_status ⟨h1, h2, h3⟩
      (by rw [hc.1.2]; decide)
    refine ⟨fun _ => Or.inr rfl, ?_, ?_⟩ <;> simp [hcn]
  · rw [if_neg hc]
    exact taskInv_weaken ⟨h1, h2, h3⟩

lemma storeWF_complete {s : Store} (hs : StoreWF s) (taskId : String)
    (r : TaskResult) (now : Nat) :
    StoreWF (afterOp s (completeTask s.tasks taskId r now)) := by
  have ha : completeTask s.tasks taskId r now = s.tasks.map (completeRow taskId r now) := rfl
  rw [ha]
  apply storeInv_map _ (completeRow_id taskId r now) hs
  intro t ht hinv
  unfold completeRow
  obtain ⟨h1, h2, h3⟩ := hinv
  by_cases hc : (t.id == taskId && t.status == "running") = true
  · rw [if_pos hc]
    simp only [Bool.and_eq_true, beq_iff_eq] at hc
    have hst : t.started_at ≠ none := h2 (Or.inl hc.2)
    refine ⟨fun _ => Or.inl (h1 hst), fun _ => hst, ?_⟩
    simp
  · rw [if_neg hc]
    exact taskInv_weaken ⟨h1, h2, h3⟩

lemma storeWF_stale {s : Store} (hs : StoreWF s) (taskId : String) :
    StoreWF (afterOp s (staleRecoverTask s.tasks taskId)) := by
  have ha : staleRecoverTask s.tasks taskId = s.tasks.map (staleRow taskId) := rfl
  rw [ha]
  apply storeInv_map _ (staleRow_id taskId) hs
  intro t ht hinv
  unfold staleRow
  obtain ⟨h1, h2, h3⟩ := hinv
  by_cases hc : (t.id == taskId && (t.status == "assigned" || t.status == "running")) = true
  · rw [if_pos hc]
    simp only [Bool.and_eq_true, Bool.or_eq_true, beq_iff_eq] at hc
    have hcn : t.completed_at = none := completed_at_none_of_status ⟨h1, h2, h3⟩
      (by rcases hc.2 with h | h <;> rw [h] <;> decide)
    refine ⟨?_, ?_, ?_⟩ <;> simp [hcn]
  · rw [if_neg hc]
    exact taskInv_weaken ⟨h1, h2, h3⟩

lemma storeWF_adminUnassign {s : Store} (hs : StoreWF s) (taskId : String) :
    StoreWF (afterOp s (adminUnassignTask s.tasks taskId).2) := by
  unfold adminUnassignTask
  split
  · exact storeInv_keep hs
  · rename_i t0 hfind
    split
    · exact storeInv_keep hs
    · rename_i hg
      simp only [Bool.and_eq_true, bne_iff_ne, ne_eq, not_and, not_not] at hg
      have hnc : t0.status ≠ "completed" := by
        by_cases hr : t0.status = "running"
        · rw [hr]; decide
        · rw [hg hr]; decide
      exact storeWF_adminReset_map hs taskId hfind hnc

lemma storeWF_adminRequeue {s : Store} (hs : StoreWF s) (taskId : String) :
    StoreWF (afterOp s (adminRequeueTask s.tasks taskId).2) := by
  unfold adminRequeueTask
  split
  · exact storeInv_keep hs
  · rename_i t0 hfind
    split
    · exact storeInv_keep hs
    · rename_i hg
      simp only [Bool.and_eq_true, bne_iff_ne, ne_eq, not_and, not_not] at hg
      have hnc : t0.status ≠ "completed" := by
        by_cases hr : t0.status = "assigned"
        · rw [hr]; decide
        · rw [hg hr]; decide
      exact storeWF_adminReset_map hs taskId hfind hnc

lemma storeWF_localUnassign {s : Store} (hs : StoreWF s) (taskId : String) :
    StoreWF (afterOp s (unassignTaskLocal s.tasks taskId).2) := by
  unfold unassignTaskLocal
  split
  · exact storeInv_keep hs
  · rename_i t0 hfind
    split
    · exact storeInv_keep hs
    · rename_i hg
      simp only [Bool.and_eq_true, bne_iff_ne, ne_eq, not_and, not_not] at hg
      have hnc : t0.status ≠ "completed" := by
        by_cases hr : t0.status = "running"
        · rw [hr]; decide
        · rw [hg hr]; decide
      exact storeWF_unassignLocal_map hs taskId hfind hnc

lemma storeWF_localMarkFailed {s : Store} (hs : StoreWF s) (taskId reason : String) :
    StoreWF (afterOp s (markTaskFailedLocal s.tasks taskId reason).2) := by
  unfold markTaskFailedLocal
  split
  · exact storeInv_keep hs
  · rename_i t0 hfind
    split
    · exact storeInv_keep hs
    · rename_i hg
      simp only [Bool.or_eq_true, beq_iff_eq, not_or] at hg
      unfold failTaskLocally
      exact storeWF_fail_cascade hs taskId ("Admin override: " ++ reason) hfind hg.1

lemma storeWF_fail {s : Store} (hs : StoreWF s) (taskId reason : String)
    (retryable : Bool) :
    StoreWF (afterOp s (failTask s.tasks taskId reason retryable)) := by
  unfold failTask
  split
  · exact storeInv_keep hs
  · rename_i t0 hfind
    split
    · exact storeInv_keep hs
    · rename_i hg
      simp only [Bool.or_eq_true, beq_iff_eq, not_or] at hg
      split
      · exact storeWF_retry_map hs taskId hfind hg.1.1
      · unfold blockDependentsUpdate
        have hcast : (List.map (failRow taskId reason) s.tasks).map (blockRow taskId)
            = blockDependentsUpdate taskId (s.tasks.map (failRow taskId reason)) := rfl
        rw [hcast]
        exact storeWF_fail_cascade hs taskId reason hfind hg.1.1

lemma storeWF_adminFailPhase1 {s : Store} (hs : StoreWF s) (taskId reason : String)
    {t0 : TaskRow} (hfind : findTask s.tasks taskId = some t0)
    (hnc : t0.status ≠ "completed") :
    StoreWF (afterOp s (adminFailUpdate taskId reason s.tasks)) := by
  unfold adminFailUpdate
  exact storeWF_failRow_map hs taskId ("Admin: " ++ reason) hfind hnc

lemma step_preserves {s s' : Store} (hs : StoreWF s) (h : Step s s') : StoreWF s' := by
  cases h with
  | create taskId deps mr hfresh => exact storeInv_create hs taskId deps mr hfresh
  | assign taskId worker => exact storeWF_assign hs taskId worker
  | claim taskId worker now => exact storeWF_claim hs taskId worker now
  | complete taskId r now => exact storeWF_complete hs taskId r now
  | fail taskId reason retryable => exact storeWF_fail hs taskId reason retryable
  | stale taskId => exact storeWF_stale hs taskId
  | adminUnassign taskId => exact storeWF_adminUnassign hs taskId
  | adminRequeue taskId => exact storeWF_adminRequeue hs taskId
  | adminFailPhase1 taskId reason t0 hfind hnc hnf =>
      exact storeWF_adminFailPhase1 hs taskId reason hfind hnc
  | adminFailPhase2 taskId => exact storeWF_blockDependents hs taskId
  | localUnassign taskId => exact storeWF_localUnassign hs taskId
  | localMarkFailed taskId reason => exact storeWF_localMarkFailed hs taskId reason

lemma reachable_wf {s : Store} (h : Reachable s) : StoreWF s := by
  induction h with
  | init =>
      refine ⟨by simp, ?_⟩
      intro t ht
      simp at ht
  | step hr hstep ih => exact step_preserves ih hstep

/-- C6 (amended): in every reachable store state, every task's `started_at`
is non-null only if the task has reached running at least once (its id is in
the ghost `ran` history); every running or completed task has `started_at`
non-null; and `completed_at` is non-null exactly for completed tasks. Every
operation preserves this, the administrative unassign, requeue and force-fail
included. The backward direction of the claimed iff (reached running implies
`started_at` non-null) is dropped: the admin unassign and requeue clear
`started_at` of a task that has run. -/
theorem C6_amended_timestamp_invariant (s : Store) (t : TaskRow)
    (hreach : Reachable s) (ht : t ∈ s.tasks) : TaskInv t s.ran :=
  (reachable_wf hreach).2 t ht

/-- C6 witness: the invariant evaluated on the reachable store in which `t1`
is running after create, assign and claim. -/
theorem C6_amended_timestamp_invariant_witness :
    TaskInv demoRunningRow demoStore3.ran :=
  C6_amended_timestamp_invariant demoStore3 demoRunningRow
    (.step (.step (.step .init (.create demoStore0 "t1" [] 3 (by decide)))
      (.assign demoStore1 "t1" "local://w1"))
      (.claim demoStore2 "t1" "local://w1" 100))
    (by decide)

/-- C6 counterexample: after create, assign, claim and the admin unassign of
the second admin routes file, the store is reachable, the task has reached
running (its id is in the `ran` history), yet its `started_at` is NULL and
its status is pending — refuting the claimed iff that `started_at` is
non-null exactly when the task has ever reached running. -/
theorem C6_counterexample_unassign_clears_started_at :
    Reachable demoStore4 ∧ "t1" ∈ demoStore4.ran ∧
    (findTask demoStore4.tasks "t1").map TaskRow.started_at = some none ∧
    (findTask demoStore4.tasks "t1").map TaskRow.status = some "pending" := by
  refine ⟨?_, by decide, by decide, by decide⟩
  exact .step (.step (.step (.step .init (.create demoStore0 "t1" [] 3 (by decide)))
    (.assign demoStore1 "t1" "local://w1"))
    (.claim demoStore2 "t1" "local://w1" 100))
    (.adminUnassign demoStore3 "t1")

/-- C4 witness: the classification evaluated at the Scenario D row. -/
theorem C4_amended_health_classification_witness :
    (dispatchAge 90000 c4ScenarioRow ≠ none ↔
      (c4ScenarioRow.status = "assigned" ∧ c4ScenarioRow.started_at = none)) ∧
    (taskSeverity 90000 c4ScenarioRow = "critical" ↔ timedOut 90000 c4ScenarioRow = true) :=
  have h := C4_amended_health_classification.1 90000 c4ScenarioRow
  ⟨h.1, h.2.2.2.2.1⟩

/-- C10 witness: the severity range evaluated on a concrete store. -/
theorem C10_severity_never_warning_witness :
    warningTaskCount 12345 [c4ScenarioRow] = 0 ∧
    taskSeverity 12345 c4ScenarioRow ≠ "warning" :=
  ⟨C10_severity_never_warning.2.2 12345 [c4ScenarioRow],
   C10_severity_never_warning.2.1 12345 c4ScenarioRow⟩

end Automaton
